import Mathlib

/-!
Shallow embedding of the core of youtube_data_fetch.py: the comment
aggregator (get_comments_by_video_id), the video aggregator
(get_videos_by_channel_id with get_video_details), the channel resolver
(get_channel_id_by_username) and the orchestrator (main).

The remote API is modelled by response scripts: a paginated call site
consumes a list of responses, one per request issued, each response being
either a transport or API error (Except.error) or a page of items together
with a flag telling whether the response carried a nextPageToken.  Per-id
lookups (video details, channel resolution, per-video comment scripts) are
modelled as functions from the identifier.  Python integers are Int where
the source can go negative (the comment budget), list positions are Nat.
-/

namespace YT

/-- One reply inside the replies block of a comment thread item, as read by
the source from reply.snippet fields. -/
structure ReplyItem where
  id : String
  text : String
  author : String
  published_at : String
  like_count : Int
  deriving DecidableEq

/-- One comment thread item from commentThreads().list: the item id (used
as comment_id of the top level record and as reply_to of its replies), the
top level comment snippet fields, and the optional replies block (the
source tests whether the replies key is present). -/
structure ThreadItem where
  id : String
  text : String
  author : String
  published_at : String
  like_count : Int
  replies : Option (List ReplyItem)
  deriving DecidableEq

/-- The dictionary appended to the comments list by get_comments_by_video_id,
one per emitted comment record. -/
structure CommentRecord where
  video_id : String
  comment_id : String
  comment_text : String
  author_name : String
  published_at : String
  like_count : Int
  reply_to : Option String
  deriving DecidableEq

/-- A script of commentThreads().list responses: each entry is a transport
or API error, or a page of thread items paired with the presence of a
nextPageToken. -/
abbrev Script : Type := List (Except Unit (List ThreadItem × Bool))

/-- The records the source appends for one thread item: one top level
record with reply_to none, then one record per reply with reply_to set to
the thread item id (source lines 198 to 223). -/
def processThread (vid : String) (item : ThreadItem) : List CommentRecord :=
  { video_id := vid, comment_id := item.id, comment_text := item.text,
    author_name := item.author, published_at := item.published_at,
    like_count := item.like_count, reply_to := none } ::
  (match item.replies with
   | none => []
   | some rs => rs.map (fun r =>
      { video_id := vid, comment_id := r.id, comment_text := r.text,
        author_name := r.author, published_at := r.published_at,
        like_count := r.like_count, reply_to := some item.id }))

/-- The while loop of get_comments_by_video_id (source lines 186 to 231):
cnt is comment_count (number of API items processed so far), the loop runs
while cnt < max_comments, each iteration consumes one scripted response
(one request.execute), an error breaks the loop keeping nothing further, a
page appends its flattened records and adds the page item count to cnt, an
absent nextPageToken breaks the loop.  Returns the records together with
the number of API calls issued. -/
def fetchCommentsAux (vid : String) (maxC : Int) :
    Nat → Script → List CommentRecord × Nat
  | _, [] => ([], 0)
  | cnt, resp :: rest =>
    if (cnt : Int) < maxC then
      match resp with
      | .error _ => ([], 1)
      | .ok (items, hasNext) =>
        let recs := (items.map (processThread vid)).flatten
        if hasNext then
          let r := fetchCommentsAux vid maxC (cnt + items.length) rest
          (recs ++ r.1, r.2 + 1)
        else (recs, 1)
    else ([], 0)

/-- get_comments_by_video_id (source lines 170 to 233) over a response
script: returns the comment records and the number of API calls issued. -/
def get_comments_by_video_id (vid : String) (maxC : Int) (script : Script) :
    List CommentRecord × Nat :=
  fetchCommentsAux vid maxC 0 script

/-- The detail fields read from videos().list by get_video_details: snippet,
contentDetails and statistics (the three count fields use dict.get and may
be absent), plus the three thumbnail urls. -/
structure VideoDetails where
  title : String
  description : String
  published_at : String
  duration : String
  view_count : Option String
  like_count : Option String
  comment_count : Option String
  default_thumbnail : String
  medium_thumbnail : String
  high_thumbnail : String
  deriving DecidableEq

/-- The dictionary returned by get_video_details (source lines 118 to 130). -/
structure VideoRecord where
  video_id : String
  title : String
  description : String
  published_at : String
  duration : String
  view_count : Option String
  like_count : Option String
  comment_count : Option String
  default_thumbnail : String
  medium_thumbnail : String
  high_thumbnail : String
  deriving DecidableEq

/-- The record get_video_details builds from the fetched detail item. -/
def mkVideoRecord (vid : String) (d : VideoDetails) : VideoRecord :=
  ⟨vid, d.title, d.description, d.published_at, d.duration, d.view_count,
   d.like_count, d.comment_count, d.default_thumbnail, d.medium_thumbnail,
   d.high_thumbnail⟩

/-- Environment for videos().list keyed by video id: a transport or API
error, or a response whose items list is empty (not found) or holds the
detail. -/
abbrev DetailEnv : Type := String → Except Unit (Option VideoDetails)

/-- get_video_details (source lines 93 to 133): any exception, including a
transport error of the detail call, is caught inside this function and
yields None; an empty items list also yields None; so the caller never sees
an error from a detail lookup. -/
def get_video_details (vid : String) (env : DetailEnv) : Option VideoRecord :=
  match env vid with
  | .error _ => none
  | .ok none => none
  | .ok (some d) => some (mkVideoRecord vid d)

/-- A script of search().list responses: each entry is a transport or API
error, or a page of video ids paired with the presence of a nextPageToken. -/
abbrev VScript : Type := List (Except Unit (List String × Bool))

/-- The while True loop of get_videos_by_channel_id (source lines 61 to 88):
each iteration consumes one scripted page response; an error breaks the
loop keeping the records accumulated so far; a page runs one detail lookup
per item, appending the record when the lookup yields one; an absent
nextPageToken breaks the loop.  Returns the records together with the
number of API calls issued (one per page request plus one per detail
lookup). -/
def fetchVideosAux (env : DetailEnv) : VScript → List VideoRecord × Nat
  | [] => ([], 0)
  | .error _ :: _ => ([], 1)
  | .ok (ids, hasNext) :: rest =>
    let recs := ids.filterMap (fun i => get_video_details i env)
    if hasNext then
      let r := fetchVideosAux env rest
      (recs ++ r.1, 1 + ids.length + r.2)
    else (recs, 1 + ids.length)

/-- get_videos_by_channel_id (source lines 47 to 90) over a response
script: returns the video records and the number of API calls issued. -/
def get_videos_by_channel_id (script : VScript) (env : DetailEnv) :
    List VideoRecord × Nat :=
  fetchVideosAux env script

/-- Environment for channels().list keyed by the handle: a transport or
API error, or a response whose items list is empty (no channel) or holds
the channel id. -/
abbrev ResolveEnv : Type := String → Except Unit (Option String)

/-- get_channel_id_by_username (source lines 18 to 44): an error or an
empty items list both print a message and return None. -/
def get_channel_id_by_username (u : String) (env : ResolveEnv) :
    Option String :=
  match env u with
  | .error _ => none
  | .ok none => none
  | .ok (some cid) => some cid

/-- Python str.split with an explicit one character separator, on the
character list: splits at every occurrence of the separator and keeps
empty fields, so the result is always a nonempty list. -/
def pySplit (sep : Char) : List Char → List (List Char)
  | [] => [[]]
  | c :: rest =>
    if c = sep then [] :: pySplit sep rest
    else
      match pySplit sep rest with
      | [] => [[c]]
      | g :: gs => (c :: g) :: gs

/-- The normalization step of main (source line 279):
username.split('/')[-1].  Indexing [-1] raises IndexError on an empty
list, modelled by none; split never returns an empty list, so this is
always some. -/
def normalizeUsername (s : String) : Option String :=
  ((pySplit '/' s.data).map (fun l => String.mk l)).getLast?

/-- Models Python int(str) as used by main on the comment count input
(source line 274): an optional sign followed by a nonempty digit string;
anything else raises ValueError, modelled by none.  Negative integers
parse successfully. -/
def pyInt (s : String) : Option Int :=
  let digits : List Char → Option Nat := fun cs =>
    if cs ≠ [] ∧ cs.all Char.isDigit then
      some (cs.foldl (fun a c => a * 10 + (c.toNat - 48)) 0)
    else none
  match s.data with
  | '-' :: rest => (digits rest).map (fun n => -(n : Int))
  | '+' :: rest => (digits rest).map (fun n => (n : Int))
  | cs => (digits cs).map (fun n => (n : Int))

/-- Environment for commentThreads().list keyed by video id: the response
script that video yields. -/
abbrev CommentEnv : Type := String → Script

/-- The comment loop of main (source lines 292 to 299): walk the videos in
order; break once the collected records reach the budget; otherwise fetch
comments for the current video with budget max_comments minus the records
collected so far and extend the collection.  Returns the collected
records, the trace of comment fetch calls issued (video id and budget
passed), and the total number of comment API calls. -/
def mainCommentsLoop (maxC : Int) (env : CommentEnv) :
    List VideoRecord → List CommentRecord →
      List CommentRecord × List (String × Int) × Nat
  | [], acc => (acc, [], 0)
  | v :: rest, acc =>
    if maxC ≤ (acc.length : Int) then (acc, [], 0)
    else
      let b := maxC - (acc.length : Int)
      let r := get_comments_by_video_id v.video_id b (env v.video_id)
      let k := mainCommentsLoop maxC env rest (acc ++ r.1)
      (k.1, (v.video_id, b) :: k.2.1, r.2 + k.2.2)

/-- The observable outcome of one run of main: the reason it aborted (none
when it ran to completion), the spreadsheet files written in order, the
two datasets, the trace of comment fetch calls, and the total number of
network calls issued. -/
structure MainResult where
  aborted : Option String
  files : List String
  videos : List VideoRecord
  comments : List CommentRecord
  commentCalls : List (String × Int)
  calls : Nat
  deriving DecidableEq

/-- main (source lines 268 to 301): parse the comment count (ValueError
aborts with no call and no file), normalize the username (the IndexError
branch aborts, when reachable), resolve the channel (failure aborts with
no file, after the one resolution call), fetch the videos, write the
videos file, run the comment loop, write the comments file. -/
def main (usernameInput countInput : String) (rEnv : ResolveEnv)
    (searchScript : VScript) (dEnv : DetailEnv) (cEnv : CommentEnv) :
    MainResult :=
  match pyInt countInput with
  | none => ⟨some "invalid_count", [], [], [], [], 0⟩
  | some maxComments =>
    match normalizeUsername usernameInput with
    | none => ⟨some "invalid_url", [], [], [], [], 0⟩
    | some username =>
      match get_channel_id_by_username username rEnv with
      | none => ⟨some "resolution_failure", [], [], [], [], 1⟩
      | some _ =>
        let v := get_videos_by_channel_id searchScript dEnv
        let c := mainCommentsLoop maxComments cEnv v.1 []
        ⟨none,
         ["videos_data_" ++ username ++ ".xlsx",
          "comments_data_of_" ++ username ++ ".xlsx"],
         v.1, c.1, c.2.1, 1 + v.2 + c.2.2⟩

/-! Concrete fixtures used by witnesses, counterexamples and the concrete
halves of the claims. -/

/-- A fixed video detail response. -/
def d0 : VideoDetails :=
  ⟨"t", "d", "p", "du", some "1", some "2", some "3", "u1", "u2", "u3"⟩

/-- A thread item with no replies block. -/
def threadNR (i : String) : ThreadItem := ⟨i, "t", "a", "p", 1, none⟩

/-- A thread item with one top level comment and two replies. -/
def threadWR : ThreadItem :=
  ⟨"c1", "t1", "a1", "p1", 1,
   some [⟨"r1", "t2", "a2", "p2", 2⟩, ⟨"r2", "t3", "a3", "p3", 3⟩]⟩

/-- A single comment page holding the one thread with two replies. -/
def scriptWR : Script := [Except.ok ([threadWR], false)]

/-- Comment environment: every video yields one page of two reply free
threads. -/
def envTwoComments : CommentEnv :=
  fun _ => [Except.ok ([threadNR "a", threadNR "b"], false)]

/-- Comment environment with no scripted responses. -/
def envNoComments : CommentEnv := fun _ => []

/-- Resolution environment: every handle resolves. -/
def resolveOk : ResolveEnv := fun _ => Except.ok (some "UC123")

/-- Resolution environment: only the empty handle resolves. -/
def resolveEmptyOnly : ResolveEnv :=
  fun u => if u = "" then Except.ok (some "UC123") else Except.ok none

/-- Resolution environment: no handle resolves, the response items list is
always empty. -/
def resolveNone : ResolveEnv := fun _ => Except.ok none

/-- Detail environment: every video id has a detail item. -/
def detailAll : DetailEnv := fun _ => Except.ok (some d0)

/-- Detail environment: the detail call for v2 raises a transport error,
every other id has a detail item. -/
def detailErrV2 : DetailEnv :=
  fun v => if v = "v2" then Except.error () else Except.ok (some d0)

/-- Detail environment: the detail lookup for b returns no item, every
other id has a detail item. -/
def detailMissB : DetailEnv :=
  fun v => if v = "b" then Except.ok none else Except.ok (some d0)

/-- One search page listing three videos, no continuation. -/
def searchOnePage : VScript := [Except.ok (["v1", "v2", "v3"], false)]

/-- Position based back reference invariant of a comment record sequence:
every record either is top level (reply_to none) or names the comment_id
of a record at a strictly earlier position of the same sequence. -/
def backRefs (l : List CommentRecord) : Prop :=
  ∀ i, (hi : i < l.length) → ∀ t, (l[i].reply_to = some t) →
    ∃ j, ∃ hj : j < l.length, j < i ∧ l[j].comment_id = t

/-- Consistency of the trace of comment fetch calls issued by the main
loop, starting from a number of records already collected: each call was
passed budget maxC minus the records collected when it was issued, was
issued only while that count was strictly below maxC, and the count then
grew by the number of records that call returned. -/
def callsConsistent (maxC : Int) (env : CommentEnv) :
    Nat → List (String × Int) → Prop
  | _, [] => True
  | collected, (v, b) :: rest =>
    b = maxC - (collected : Int) ∧ (collected : Int) < maxC ∧
    callsConsistent maxC env
      (collected + ((get_comments_by_video_id v b (env v)).1).length) rest

/-! Helper lemmas. -/

theorem fetchCommentsAux_calls_pos (vid : String) (maxC : Int) (cnt : Nat)
    (s : Script) (h : 0 < (fetchCommentsAux vid maxC cnt s).2) :
    (cnt : Int) < maxC := by
  cases s with
  | nil => simp [fetchCommentsAux] at h
  | cons resp rest =>
    by_cases hg : (cnt : Int) < maxC
    · exact hg
    · simp [fetchCommentsAux, hg] at h

theorem backRefs_nil : backRefs [] := by
  intro i hi
  simp at hi

theorem backRefs_append {a b : List CommentRecord} (ha : backRefs a)
    (hb : backRefs b) : backRefs (a ++ b) := by
  intro i hi t ht
  by_cases hia : i < a.length
  · rw [List.getElem_append_left hia] at ht
    obtain ⟨j, hj, hji, hc⟩ := ha i hia t ht
    refine ⟨j, by simp; omega, hji, ?_⟩
    rw [List.getElem_append_left hj]
    exact hc
  · push_neg at hia
    have hib : i - a.length < b.length := by
      simp at hi
      omega
    rw [List.getElem_append_right hia] at ht
    obtain ⟨j, hj, hji, hc⟩ := hb (i - a.length) hib t ht
    refine ⟨a.length + j, by simp; omega, by omega, ?_⟩
    rw [List.getElem_append_right (Nat.le_add_right a.length j)]
    simpa using hc

theorem backRefs_processThread (vid : String) (item : ThreadItem) :
    backRefs (processThread vid item) := by
  intro i hi t ht
  cases i with
  | zero => simp [processThread] at ht
  | succ n =>
    cases hr : item.replies with
    | none =>
      simp [processThread, hr] at hi
    | some rs =>
      have hn : n < rs.length := by
        simpa [processThread, hr] using hi
      have ht2 : t = item.id := by
        have h3 := ht
        simp [processThread, hr] at h3
        exact h3.symm
      exact ⟨0, by simp [processThread], Nat.succ_pos n,
        by simp [processThread, ht2]⟩

theorem backRefs_flatten :
    ∀ L : List (List CommentRecord), (∀ x ∈ L, backRefs x) →
      backRefs L.flatten := by
  intro L
  induction L with
  | nil =>
    intro _
    simpa using backRefs_nil
  | cons x xs ih =>
    intro h
    rw [List.flatten_cons]
    exact backRefs_append (h x (List.mem_cons_self x xs))
      (ih fun y hy => h y (List.mem_cons_of_mem x hy))

theorem backRefs_fetchCommentsAux (vid : String) (maxC : Int) (s : Script) :
    ∀ cnt : Nat, backRefs (fetchCommentsAux vid maxC cnt s).1 := by
  induction s with
  | nil =>
    intro cnt
    simpa [fetchCommentsAux] using backRefs_nil
  | cons resp rest ih =>
    intro cnt
    by_cases hg : (cnt : Int) < maxC
    · cases resp with
      | error e => simpa [fetchCommentsAux, hg] using backRefs_nil
      | ok pr =>
        obtain ⟨items, hasNext⟩ := pr
        have hrecs : backRefs ((items.map (processThread vid)).flatten) := by
          refine backRefs_flatten _ ?_
          intro x hx
          obtain ⟨it, _, rfl⟩ := List.mem_map.mp hx
          exact backRefs_processThread vid it
        cases hasNext with
        | false => simpa [fetchCommentsAux, hg] using hrecs
        | true =>
          simpa [fetchCommentsAux, hg] using
            backRefs_append hrecs (ih (cnt + items.length))
    · simpa [fetchCommentsAux, hg] using backRefs_nil

/-! Claim theorems. -/

/-- C1: with max_count positive, the comment loop requests a further page
only when the number of threads processed so far, including the current
page, is still strictly below max_count and the response carried a
nextPageToken; and on a script whose single thread carries a reply, the
returned record count exceeds max_count, since the cap counts threads and
not emitted records. -/
theorem claim_C1 :
    (∀ (vid : String) (maxC : Int) (cnt : Nat) (items : List ThreadItem)
      (hasNext : Bool) (rest : Script), 0 < maxC →
      1 < (fetchCommentsAux vid maxC cnt
            (Except.ok (items, hasNext) :: rest)).2 →
      (((cnt + items.length : Nat) : Int) < maxC ∧ hasNext = true)) ∧
    1 < (get_comments_by_video_id "v" 1 scriptWR).1.length := by
  constructor
  · intro vid maxC cnt items hasNext rest _ h
    by_cases hg : (cnt : Int) < maxC
    · cases hasNext with
      | false => simp [fetchCommentsAux, hg] at h
      | true =>
        refine ⟨?_, rfl⟩
        have hpos :
            0 < (fetchCommentsAux vid maxC (cnt + items.length) rest).2 := by
          simp [fetchCommentsAux, hg] at h
          omega
        exact fetchCommentsAux_calls_pos _ _ _ _ hpos
    · simp [fetchCommentsAux, hg] at h
  · decide

/-- Witness for C1: a concrete two page run in which a further page was
requested, so the first page left the thread count below the budget and
carried a cursor. -/
theorem claim_C1_witness :
    (((0 + ([threadNR "a"].length) : Nat) : Int) < 2 ∧ true = true) :=
  claim_C1.1 "v" 2 0 [threadNR "a"] true [Except.ok ([], false)]
    (by decide) (by decide)

/-- C3: with max_count zero the comment aggregator returns no record and
issues no API call, for every video id and every scripted environment. -/
theorem claim_C3 (vid : String) (script : Script) :
    get_comments_by_video_id vid 0 script = ([], 0) := by
  cases script with
  | nil => rfl
  | cons resp rest => simp [get_comments_by_video_id, fetchCommentsAux]

/-- C4: every sequence the comment aggregator returns satisfies the back
reference invariant, the reply_to of each record being none or the
comment_id of a strictly earlier record; and on the one thread with one
top level comment and two replies, with max_count ten, the result is
exactly the three records top level then the two replies, the replies
naming the first record. -/
theorem claim_C4 :
    (∀ (vid : String) (maxC : Int) (script : Script),
      backRefs (get_comments_by_video_id vid maxC script).1) ∧
    (get_comments_by_video_id "v" 10 scriptWR).1 =
      [⟨"v", "c1", "t1", "a1", "p1", 1, none⟩,
       ⟨"v", "r1", "t2", "a2", "p2", 2, some "c1"⟩,
       ⟨"v", "r2", "t3", "a3", "p3", 3, some "c1"⟩] := by
  constructor
  · intro vid maxC script
    exact backRefs_fetchCommentsAux vid maxC script 0
  · decide

/-- Witness for C4: the invariant applied to the concrete three record
result at position one, a reply, yields the strictly earlier top level
record carrying its reply_to value as comment_id. -/
theorem claim_C4_witness :
    ∃ j, ∃ hj : j < (get_comments_by_video_id "v" 10 scriptWR).1.length,
      j < 1 ∧ (get_comments_by_video_id "v" 10 scriptWR).1[j].comment_id = "c1" :=
  claim_C4.1 "v" 10 scriptWR 1 (by decide) "c1" (by decide)

theorem mainCommentsLoop_callsConsistent (maxC : Int) (env : CommentEnv) :
    ∀ (vids : List VideoRecord) (acc : List CommentRecord),
      callsConsistent maxC env acc.length
        (mainCommentsLoop maxC env vids acc).2.1 := by
  intro vids
  induction vids with
  | nil =>
    intro acc
    simp [mainCommentsLoop, callsConsistent]
  | cons v rest ih =>
    intro acc
    by_cases h : maxC ≤ (acc.length : Int)
    · simp [mainCommentsLoop, h, callsConsistent]
    · have hih := ih (acc ++ (get_comments_by_video_id v.video_id
        (maxC - (acc.length : Int)) (env v.video_id)).1)
      rw [List.length_append] at hih
      simp only [mainCommentsLoop, h, ite_false, callsConsistent]
      exact ⟨trivial, by omega, hih⟩

theorem mainCommentsLoop_order (maxC : Int) (env : CommentEnv) :
    ∀ (vids : List VideoRecord) (acc : List CommentRecord),
      ((mainCommentsLoop maxC env vids acc).2.1).map Prod.fst =
        (vids.map (fun v => v.video_id)).take
          ((mainCommentsLoop maxC env vids acc).2.1).length := by
  intro vids
  induction vids with
  | nil =>
    intro acc
    simp [mainCommentsLoop]
  | cons v rest ih =>
    intro acc
    by_cases h : maxC ≤ (acc.length : Int)
    · simp [mainCommentsLoop, h]
    · simp [mainCommentsLoop, h, List.take_succ_cons]
      exact ih _

theorem mainCommentsLoop_stop (maxC : Int) (env : CommentEnv) :
    ∀ (vids : List VideoRecord) (acc : List CommentRecord),
      ((mainCommentsLoop maxC env vids acc).2.1).length < vids.length →
      maxC ≤ (((mainCommentsLoop maxC env vids acc).1).length : Int) := by
  intro vids
  induction vids with
  | nil =>
    intro acc h
    simp [mainCommentsLoop] at h
  | cons v rest ih =>
    intro acc
    by_cases h : maxC ≤ (acc.length : Int)
    · intro _
      simp [mainCommentsLoop, h]
    · intro hlen
      have hih := ih (acc ++ (get_comments_by_video_id v.video_id
        (maxC - (acc.length : Int)) (env v.video_id)).1)
      simp [mainCommentsLoop, h] at hlen ⊢
      exact hih (by omega)

/-- C2: the comment loop of main issues its fetch calls along the video
sequence in order (the called ids are an initial segment of the video ids),
each call is passed the budget max_comments minus the records collected
when it is issued and is issued only while that count is strictly below
the budget, the loop stops as soon as the collected records reach or
exceed the budget (a skipped video means the final collection reached it),
and on the concrete run with three videos of two top level comments each
and budget four, main collects exactly four records from the first two
videos and never issues a fetch for the third. -/
theorem claim_C2 :
    (∀ (maxC : Int) (env : CommentEnv) (vids : List VideoRecord)
      (acc : List CommentRecord),
      callsConsistent maxC env acc.length
        (mainCommentsLoop maxC env vids acc).2.1) ∧
    (∀ (maxC : Int) (env : CommentEnv) (vids : List VideoRecord)
      (acc : List CommentRecord),
      ((mainCommentsLoop maxC env vids acc).2.1).map Prod.fst =
        (vids.map (fun v => v.video_id)).take
          ((mainCommentsLoop maxC env vids acc).2.1).length) ∧
    (∀ (maxC : Int) (env : CommentEnv) (vids : List VideoRecord)
      (acc : List CommentRecord),
      ((mainCommentsLoop maxC env vids acc).2.1).length < vids.length →
      maxC ≤ (((mainCommentsLoop maxC env vids acc).1).length : Int)) ∧
    ((main "chan" "4" resolveOk searchOnePage detailAll
        envTwoComments).comments.map (fun c => c.video_id) =
      ["v1", "v1", "v2", "v2"] ∧
     (main "chan" "4" resolveOk searchOnePage detailAll
        envTwoComments).comments.length = 4 ∧
     (main "chan" "4" resolveOk searchOnePage detailAll
        envTwoComments).commentCalls = [("v1", 4), ("v2", 2)]) :=
  ⟨mainCommentsLoop_callsConsistent, mainCommentsLoop_order,
   mainCommentsLoop_stop, by decide, by decide, by decide⟩

/-- Witness for C2: on a run whose budget zero loop skips the single
video, the stopping clause applied at that concrete input shows the final
collection already reached the budget. -/
theorem claim_C2_witness :
    (0 : Int) ≤
      (((mainCommentsLoop 0 envNoComments [mkVideoRecord "v1" d0] []).1).length :
        Int) :=
  claim_C2.2.2.1 0 envNoComments [mkVideoRecord "v1" d0] [] (by decide)

theorem fetchVideosAux_error_trunc (env : DetailEnv) :
    ∀ pre rest : VScript,
      (∀ p ∈ pre, ∃ ids, p = Except.ok (ids, true)) →
      (fetchVideosAux env (pre ++ Except.error () :: rest)).1 =
        (fetchVideosAux env pre).1 := by
  intro pre
  induction pre with
  | nil =>
    intro rest _
    simp [fetchVideosAux]
  | cons p pre ih =>
    intro rest h
    obtain ⟨ids, rfl⟩ := h _ (List.mem_cons_self _ pre)
    have hih := ih rest fun q hq => h q (List.mem_cons_of_mem _ hq)
    simp [fetchVideosAux, hih]

/-- C5 as amended: an error of a page listing call truncates the video
aggregation, returning exactly the records accumulated from the pages
before it, whatever responses would follow; an error of a detail call is
caught inside the detail fetcher, so the page loop does not stop there:
the erroring video is merely skipped and every other video of the page
still contributes its record. -/
theorem claim_C5 :
    (∀ (env : DetailEnv) (pre rest : VScript),
      (∀ p ∈ pre, ∃ ids, p = Except.ok (ids, true)) →
      (get_videos_by_channel_id (pre ++ Except.error () :: rest) env).1 =
        (get_videos_by_channel_id pre env).1) ∧
    (∀ (env : DetailEnv) (ids1 ids2 : List String) (v : String),
      env v = Except.error () →
      (get_videos_by_channel_id [Except.ok (ids1 ++ v :: ids2, false)] env).1 =
        (get_videos_by_channel_id [Except.ok (ids1 ++ ids2, false)] env).1) := by
  constructor
  · intro env pre rest h
    exact fetchVideosAux_error_trunc env pre rest h
  · intro env ids1 ids2 v hv
    simp [get_videos_by_channel_id, fetchVideosAux, List.filterMap_append,
      List.filterMap_cons, get_video_details, hv]

/-- Counterexample to C5 as stated: with the detail call for v2 raising a
transport error on the single page v1 v2 v3, the aggregator still returns
the record of v3, accumulated after the failing detail call, so the
pagination loop did not terminate at the failure. -/
theorem claim_C5_counterexample :
    ((get_videos_by_channel_id searchOnePage detailErrV2).1).map
        (fun r => r.video_id) = ["v1", "v3"] ∧
    ((["v1", "v3"] : List String) == ["v1"]) = false := by
  decide

/-- Witness for C5: the truncation clause applied to a concrete script
with one full page before the error gives the one record of that page. -/
theorem claim_C5_witness :
    (get_videos_by_channel_id
        ([Except.ok (["v1"], true)] ++ Except.error () ::
          [Except.ok (["v9"], false)]) detailAll).1 =
      (get_videos_by_channel_id [Except.ok (["v1"], true)] detailAll).1 :=
  claim_C5.1 detailAll [Except.ok (["v1"], true)] [Except.ok (["v9"], false)]
    (by
      intro p hp
      rw [List.mem_singleton] at hp
      exact ⟨["v1"], hp⟩)

theorem filterMap_details_all (env : DetailEnv) :
    ∀ l : List String, (∀ u ∈ l, ∃ d, env u = Except.ok (some d)) →
      ((l.filterMap (fun i => get_video_details i env)).map
          (fun r => r.video_id) = l ∧
       (l.filterMap (fun i => get_video_details i env)).length = l.length) := by
  intro l
  induction l with
  | nil => simp
  | cons u l ih =>
    intro h
    obtain ⟨d, hd⟩ := h u (List.mem_cons_self u l)
    have hih := ih fun x hx => h x (List.mem_cons_of_mem u hx)
    have hu : get_video_details u env = some (mkVideoRecord u d) := by
      simp [get_video_details, hd]
    simp only [List.filterMap_cons, hu]
    constructor
    · simp [mkVideoRecord, hih.1]
    · simp [hih.2]

/-- C8: on a page of videos in which exactly one id has a detail lookup
returning no item while every other id resolves, the aggregator output
lists exactly the other ids in order, its length is one less than the page
length, and the not found id contributes no record at all. -/
theorem claim_C8 (env : DetailEnv) (pre post : List String) (v : String)
    (hv : env v = Except.ok none)
    (h : ∀ u ∈ pre ++ post, ∃ d, env u = Except.ok (some d))
    (hpre : v ∉ pre) (hpost : v ∉ post) :
    ((get_videos_by_channel_id [Except.ok (pre ++ v :: post, false)] env).1.map
        (fun r => r.video_id) = pre ++ post ∧
     (get_videos_by_channel_id [Except.ok (pre ++ v :: post, false)]
        env).1.length + 1 = (pre ++ v :: post).length ∧
     v ∉ (get_videos_by_channel_id [Except.ok (pre ++ v :: post, false)]
        env).1.map (fun r => r.video_id)) := by
  have hPre := filterMap_details_all env pre
    fun u hu => h u (List.mem_append_left _ hu)
  have hPost := filterMap_details_all env post
    fun u hu => h u (List.mem_append_right _ hu)
  have hform : (get_videos_by_channel_id [Except.ok (pre ++ v :: post, false)]
      env).1 =
      pre.filterMap (fun i => get_video_details i env) ++
        post.filterMap (fun i => get_video_details i env) := by
    simp [get_videos_by_channel_id, fetchVideosAux, List.filterMap_append,
      List.filterMap_cons, get_video_details, hv]
  rw [hform]
  refine ⟨?_, ?_, ?_⟩
  · simp [List.map_append, hPre.1, hPost.1]
  · simp [List.length_append, hPre.2, hPost.2]
    omega
  · simp [List.map_append, hPre.1, hPost.1, List.mem_append]
    exact ⟨hpre, hpost⟩

/-- Witness for C8: the page a b c where only b lacks a detail item yields
the two records of a and c, in order, with no record for b. -/
theorem claim_C8_witness :
    ((get_videos_by_channel_id [Except.ok (["a"] ++ "b" :: ["c"], false)]
        detailMissB).1.map (fun r => r.video_id) = ["a"] ++ ["c"] ∧
     (get_videos_by_channel_id [Except.ok (["a"] ++ "b" :: ["c"], false)]
        detailMissB).1.length + 1 = (["a"] ++ "b" :: ["c"]).length ∧
     "b" ∉ (get_videos_by_channel_id [Except.ok (["a"] ++ "b" :: ["c"], false)]
        detailMissB).1.map (fun r => r.video_id)) :=
  claim_C8 detailMissB ["a"] ["c"] "b" rfl
    (by
      intro u hu
      rcases List.mem_append.mp hu with h1 | h1
      · rw [List.mem_singleton] at h1
        exact ⟨d0, by subst h1; rfl⟩
      · rw [List.mem_singleton] at h1
        exact ⟨d0, by subst h1; rfl⟩)
    (by decide) (by decide)

/-- Counterexample to C6 as stated: the normalization of the input
"@example/" is the empty string, the last field of the split being the
empty segment after the trailing slash, not "example". -/
theorem claim_C6_counterexample :
    normalizeUsername "@example/" = some "" ∧
    ((normalizeUsername "@example/" == some "example") = false) := by
  decide

/-- C6 as amended: the normalization takes the last slash separated field
of the raw input, so "@example/" normalizes to the empty string (the field
after the trailing slash) and "abc/example" to "example", with no at sign
stripping; and main hands exactly that normalized value to resolution, a
run on "@example/" resolving the empty handle. -/
theorem claim_C6 :
    normalizeUsername "@example/" = some "" ∧
    normalizeUsername "abc/example" = some "example" ∧
    normalizeUsername "@example" = some "@example" ∧
    (main "@example/" "3" resolveEmptyOnly [] detailAll
      envNoComments).aborted = none := by
  decide

/-- Counterexample to C7 as stated: the comment count input "-5" is a
negative integer, yet the run does not abort, issues network calls and
writes both output files. -/
theorem claim_C7_counterexample :
    pyInt "-5" = some (-5) ∧
    (main "c" "-5" resolveOk searchOnePage detailAll
      envTwoComments).aborted = none ∧
    (((main "c" "-5" resolveOk searchOnePage detailAll
      envTwoComments).files == []) = false) ∧
    0 < (main "c" "-5" resolveOk searchOnePage detailAll
      envTwoComments).calls := by
  decide

/-- C7 as amended: a comment count input that fails integer parsing
aborts the run before any network call with no file written; but a
negative integer parses successfully and the run proceeds, issuing network
calls and writing both files, while collecting zero comment records since
the budget is already met. -/
theorem claim_C7 :
    (∀ (uIn cIn : String) (rEnv : ResolveEnv) (s : VScript)
      (dEnv : DetailEnv) (cEnv : CommentEnv), pyInt cIn = none →
      main uIn cIn rEnv s dEnv cEnv =
        ⟨some "invalid_count", [], [], [], [], 0⟩) ∧
    ((main "c" "-5" resolveOk searchOnePage detailAll
        envTwoComments).aborted = none ∧
     (main "c" "-5" resolveOk searchOnePage detailAll envTwoComments).files =
       ["videos_data_c.xlsx", "comments_data_of_c.xlsx"] ∧
     (main "c" "-5" resolveOk searchOnePage detailAll
        envTwoComments).comments = [] ∧
     0 < (main "c" "-5" resolveOk searchOnePage detailAll
        envTwoComments).calls) := by
  constructor
  · intro uIn cIn rEnv s dEnv cEnv h
    simp [main, h]
  · exact ⟨by decide, by decide, by decide, by decide⟩

/-- Witness for C7: the non numeric input abc aborts the run with no call
and no file. -/
theorem claim_C7_witness :
    main "c" "abc" resolveOk searchOnePage detailAll envTwoComments =
      ⟨some "invalid_count", [], [], [], [], 0⟩ :=
  claim_C7.1 "c" "abc" resolveOk searchOnePage detailAll envTwoComments
    (by decide)

/-- C9: whenever the comment count parses and resolution of the
normalized handle fails, by a transport error or by an empty items list,
main aborts reporting the resolution failure and writes no file, so
neither export is reached. -/
theorem claim_C9 (uIn cIn : String) (m : Int) (username : String)
    (rEnv : ResolveEnv) (s : VScript) (dEnv : DetailEnv) (cEnv : CommentEnv)
    (hc : pyInt cIn = some m) (hu : normalizeUsername uIn = some username)
    (hr : rEnv username = Except.error () ∨ rEnv username = Except.ok none) :
    (main uIn cIn rEnv s dEnv cEnv).files = [] ∧
    (main uIn cIn rEnv s dEnv cEnv).aborted = some "resolution_failure" := by
  have hres : get_channel_id_by_username username rEnv = none := by
    rcases hr with h | h <;> simp [get_channel_id_by_username, h]
  simp [main, hc, hu, hres]

/-- Witness for C9: a concrete run whose handle resolves to no channel
aborts with no file written. -/
theorem claim_C9_witness :
    (main "c" "5" resolveNone searchOnePage detailAll
      envTwoComments).files = [] ∧
    (main "c" "5" resolveNone searchOnePage detailAll
      envTwoComments).aborted = some "resolution_failure" :=
  claim_C9 "c" "5" 5 "c" resolveNone searchOnePage detailAll envTwoComments
    (by decide) (by decide) (Or.inr rfl)

theorem pySplit_ne_nil (sep : Char) : ∀ cs : List Char, pySplit sep cs ≠ [] := by
  intro cs
  induction cs with
  | nil => simp [pySplit]
  | cons c rest ih =>
    by_cases h : c = sep
    · simp [pySplit, h]
    · simp only [pySplit, h, ite_false]
      cases hr : pySplit sep rest with
      | nil => simp
      | cons g gs => simp

/-- C10: the normalization of main is total, the split always yielding a
nonempty list whose last element exists, so on every input and every
environment main never aborts through the invalid URL branch: its abort
reason is always none, the invalid count reason or the resolution failure
reason. -/
theorem claim_C10 :
    (∀ s : String, (normalizeUsername s).isSome = true) ∧
    (∀ (uIn cIn : String) (rEnv : ResolveEnv) (sc : VScript)
      (dEnv : DetailEnv) (cEnv : CommentEnv),
      (main uIn cIn rEnv sc dEnv cEnv).aborted = none ∨
      (main uIn cIn rEnv sc dEnv cEnv).aborted = some "invalid_count" ∨
      (main uIn cIn rEnv sc dEnv cEnv).aborted = some "resolution_failure") := by
  have h1 : ∀ s : String, (normalizeUsername s).isSome = true := by
    intro s
    have h2 : (pySplit '/' s.data).map (fun l => String.mk l) ≠ [] := by
      simp [pySplit_ne_nil]
    simpa [normalizeUsername] using List.getLast?_isSome.mpr h2
  constructor
  · exact h1
  · intro uIn cIn rEnv sc dEnv cEnv
    cases hp : pyInt cIn with
    | none =>
      right; left
      simp [main, hp]
    | some m =>
      cases hn : normalizeUsername uIn with
      | none =>
        exfalso
        have h3 := h1 uIn
        rw [hn] at h3
        simp at h3
      | some username =>
        cases hres : get_channel_id_by_username username rEnv with
        | none =>
          right; right
          simp [main, hp, hn, hres]
        | some cid =>
          left
          simp [main, hp, hn, hres]

end YT
